import Mathlib

/-!
Shallow embedding of the configuration-discovery core of the potnet
repository (src/pot/mod.rs) together with theorems settling the frozen
claims about it.

Strings are modelled as `List Char`; the Rust `str` methods used by the
source (`split`, `trim`, `lines`, `starts_with`) are given faithful
executable models below.  The IP-address and CIDR parsing supplied by the
Rust standard library and the `ipnet` crate are modelled as executable
parsers over the same representation.
-/

namespace Potnet

/-- Models Rust `str::split(sep)` on a single separator character.
The result is never empty: `"".split(c)` yields one empty piece. -/
def splitOnChar (sep : Char) : List Char → List (List Char)
  | [] => [[]]
  | c :: rest =>
    match splitOnChar sep rest with
    | [] => [[]]
    | h :: t => if c == sep then [] :: h :: t else (c :: h) :: t

/-- Models `s.split(' ').nth(0).unwrap()`: the first space-separated token
(`split` always yields at least one piece, so the `unwrap` cannot fail). -/
def firstSpaceToken (l : List Char) : List Char :=
  match splitOnChar (' ') l with
  | h :: _ => h
  | [] => []

/-- Models Rust `str::starts_with` on a string pattern. -/
def startsWithL (p l : List Char) : Bool :=
  match p, l with
  | [], _ => true
  | _ :: _, [] => false
  | a :: ps, b :: ls => a == b && startsWithL ps ls

/-- Models Rust `str::starts_with` on a single character pattern. -/
def startsWithChar (c : Char) (l : List Char) : Bool :=
  match l with
  | [] => false
  | a :: _ => a == c

/-- Models Rust `char::is_whitespace` (the Unicode White_Space property). -/
def isRustWhitespace (c : Char) : Bool :=
  c == ' ' || c == '\t' || c == '\n' || c == '\x0b' || c == '\x0c' || c == '\r' ||
  c.val == 0x85 || c.val == 0xA0 || c.val == 0x1680 ||
  (decide (0x2000 ≤ c.val) && decide (c.val ≤ 0x200A)) ||
  c.val == 0x2028 || c.val == 0x2029 || c.val == 0x202F || c.val == 0x205F ||
  c.val == 0x3000

/-- Models Rust `str::trim`: drop whitespace from both ends. -/
def rustTrim (l : List Char) : List Char :=
  ((l.dropWhile isRustWhitespace).reverse.dropWhile isRustWhitespace).reverse

/-- Drops one trailing carriage return, used by the `lines` model. -/
def stripTrailingCR (p : List Char) : List Char :=
  match p.reverse with
  | '\r' :: rest => rest.reverse
  | _ => p

/-- Models Rust `str::lines`: split at `'\n'`, strip a `'\r'` left at the
end of a piece by a `"\r\n"` ending, and do not produce a final empty line
for a trailing newline (so the empty string has no lines). -/
def rustLines (l : List Char) : List (List Char) :=
  match (splitOnChar ('\n') l).reverse with
  | [] => []
  | last :: revInit =>
    let init := (revInit.reverse).map stripTrailingCR
    if last.isEmpty then init else init ++ [last]

/-- An IP address: four decimal octets (v4) or eight 16-bit groups (v6).
Models `std::net::IpAddr`. -/
inductive IpAddr where
  | v4 (a b c d : Nat) : IpAddr
  | v6 (a b c d e f g h : Nat) : IpAddr
deriving DecidableEq

/-- Numeric value of a list of decimal digits. -/
def digitsToNat (l : List Char) : Nat :=
  l.foldl (fun acc c => acc * 10 + (c.toNat - 48)) 0

/-- Models one IPv4 octet of Rust's address parser: one to three decimal
digits, no leading zero (unless the octet is exactly "0"), value at most
255. -/
def parseDecOctet (l : List Char) : Option Nat :=
  if l.isEmpty then none
  else if !(l.all Char.isDigit) then none
  else if decide (3 < l.length) then none
  else if l.head? == some ('0') && l != [('0')] then none
  else if decide (digitsToNat l ≤ 255) then some (digitsToNat l) else none

/-- Models `Ipv4Addr::from_str`: exactly four octets separated by dots. -/
def parseIpv4 (l : List Char) : Option IpAddr :=
  match splitOnChar ('.') l with
  | [p1, p2, p3, p4] =>
    match parseDecOctet p1, parseDecOctet p2, parseDecOctet p3, parseDecOctet p4 with
    | some a, some b, some c, some d => some (IpAddr.v4 a b c d)
    | _, _, _, _ => none
  | _ => none

/-- Value of one hexadecimal digit, or `none`. -/
def hexDigitVal (c : Char) : Option Nat :=
  if c.isDigit then some (c.toNat - 48)
  else if decide ('a' ≤ c) && decide (c ≤ 'f') then some (c.toNat - 87)
  else if decide ('A' ≤ c) && decide (c ≤ 'F') then some (c.toNat - 55)
  else none

/-- Models one IPv6 group: one to four hexadecimal digits. -/
def parseHexGroup (l : List Char) : Option Nat :=
  if l.isEmpty || decide (4 < l.length) then none
  else l.foldl (fun acc c =>
    match acc, hexDigitVal c with
    | some a, some h => some (a * 16 + h)
    | _, _ => none) (some 0)

/-- Splits a string at the first occurrence of `"::"`, when present. -/
def splitDoubleColon : List Char → Option (List Char × List Char)
  | ':' :: ':' :: rest => some ([], rest)
  | c :: rest => (splitDoubleColon rest).map (fun p => (c :: p.1, p.2))
  | [] => none

/-- Colon-separated parts of a (possibly empty) side of an IPv6 address. -/
def partsOf (l : List Char) : List (List Char) :=
  if l.isEmpty then [] else splitOnChar (':') l

/-- Parses a list of IPv6 parts into 16-bit group values; when `allowV4`
is set the final part may be an embedded IPv4 address filling two groups
(as in Rust's IPv6 parser). -/
def groupsOfParts (parts : List (List Char)) (allowV4 : Bool) : Option (List Nat) :=
  match parts with
  | [] => some []
  | [last] =>
    match parseHexGroup last with
    | some g => some [g]
    | none =>
      if allowV4 then
        match parseIpv4 last with
        | some (IpAddr.v4 a b c d) => some [a * 256 + b, c * 256 + d]
        | _ => none
      else none
  | p :: rest =>
    match parseHexGroup p, groupsOfParts rest allowV4 with
    | some g, some gs => some (g :: gs)
    | _, _ => none

/-- Packs exactly eight group values into an IPv6 address. -/
def mk8 : List Nat → Option IpAddr
  | [a, b, c, d, e, f, g, h] => some (IpAddr.v6 a b c d e f g h)
  | _ => none

/-- Models `Ipv6Addr::from_str`: eight colon-separated groups, or fewer
with one `"::"` standing for the missing zero groups; an embedded IPv4
address may occupy the final 32 bits. -/
def parseIpv6 (l : List Char) : Option IpAddr :=
  match splitDoubleColon l with
  | some (left, right) =>
    match groupsOfParts (partsOf left) false, groupsOfParts (partsOf right) true with
    | some gl, some gr =>
      if decide (gl.length + gr.length ≤ 7) then
        mk8 (gl ++ List.replicate (8 - gl.length - gr.length) 0 ++ gr)
      else none
    | _, _ => none
  | none =>
    match groupsOfParts (partsOf l) true with
    | some gs => if gs.length == 8 then mk8 gs else none
    | none => none

/-- Models `IpAddr::from_str`: try IPv4 first, then IPv6. -/
def parseIpAddr (l : List Char) : Option IpAddr :=
  match parseIpv4 l with
  | some a => some a
  | none => parseIpv6 l

/-- A CIDR network: address groups plus a prefix length.
Models `ipnet::IpNet`. -/
inductive IpNet where
  | v4 (a b c d : Nat) (prefixLen : Nat) : IpNet
  | v6 (a b c d e f g h : Nat) (prefixLen : Nat) : IpNet
deriving DecidableEq

/-- Models the decimal parse of the prefix length (a `u8`): nonempty,
digits only, value at most 255. -/
def parseLenU8 (l : List Char) : Option Nat :=
  if l.isEmpty then none
  else if !(l.all Char.isDigit) then none
  else if decide (digitsToNat l ≤ 255) then some (digitsToNat l) else none

/-- Splits a string at the first occurrence of a character, when present. -/
def splitAtFirst (sep : Char) : List Char → Option (List Char × List Char)
  | [] => none
  | c :: rest =>
    if c == sep then some ([], rest)
    else (splitAtFirst sep rest).map (fun p => (c :: p.1, p.2))

/-- Models `IpNet::from_str` of the ipnet crate: an address, a slash and a
prefix length; `Ipv4Net` (prefix at most 32) is tried first, then
`Ipv6Net` (prefix at most 128); a string without a slash fails. -/
def parseIpNet (l : List Char) : Option IpNet :=
  match splitAtFirst ('/') l with
  | none => none
  | some (addrPart, lenPart) =>
    match parseLenU8 lenPart with
    | none => none
    | some p =>
      match parseIpv4 addrPart with
      | some (IpAddr.v4 a b c d) =>
        if decide (p ≤ 32) then some (IpNet.v4 a b c d p) else none
      | _ =>
        match parseIpv6 addrPart with
        | some (IpAddr.v6 a b c d e f g h) =>
          if decide (p ≤ 128) then some (IpNet.v6 a b c d e f g h p) else none
        | _ => none

/-- 32-bit value of an IPv4 address given as octets. -/
def v4ToNat (a b c d : Nat) : Nat := ((a * 256 + b) * 256 + c) * 256 + d

/-- 128-bit value of an IPv6 address given as 16-bit groups. -/
def v6ToNat (a b c d e f g h : Nat) : Nat :=
  ((((((a * 65536 + b) * 65536 + c) * 65536 + d) * 65536 + e) * 65536 + f) * 65536 + g)
    * 65536 + h

/-- Models `IpNet::contains(&IpAddr)` of the ipnet crate: the address lies
between the network address (host bits cleared) and the broadcast address
(host bits set); families must match. -/
def IpNet.contains : IpNet → IpAddr → Bool
  | IpNet.v4 a b c d p, IpAddr.v4 x y z w =>
    let k := 32 - p
    let net := v4ToNat a b c d / 2 ^ k * 2 ^ k
    let av := v4ToNat x y z w
    decide (net ≤ av) && decide (av ≤ net + (2 ^ k - 1))
  | IpNet.v6 a b c d e f g h p, IpAddr.v6 x1 x2 x3 x4 x5 x6 x7 x8 =>
    let k := 128 - p
    let net := v6ToNat a b c d e f g h / 2 ^ k * 2 ^ k
    let av := v6ToNat x1 x2 x3 x4 x5 x6 x7 x8
    decide (net ≤ av) && decide (av ≤ net + (2 ^ k - 1))
  | _, _ => false

/-- Modelled from the spec: the error type of the core (its file
src/pot/error.rs is not under src/); the two variants referenced by
src/pot/mod.rs are the bridge-configuration parse failure and the
jail-listing probe failure. -/
inductive PotError where
  | BridgeConfError : PotError
  | JlsError : PotError
deriving DecidableEq

/-- The partial system configuration (struct `SystemConf`), all eight
fields optional.  Field order follows the source. -/
structure SystemConf where
  zfs_root : Option String
  fs_root : Option String
  network : Option IpNet
  netmask : Option IpAddr
  gateway : Option IpAddr
  ext_if : Option String
  dns_name : Option String
  dns_ip : Option IpAddr
deriving DecidableEq

/-- Models `SystemConf::default()` (derived `Default`): every field absent. -/
def SystemConf.default : SystemConf :=
  { zfs_root := none, fs_root := none, network := none, netmask := none,
    gateway := none, ext_if := none, dns_name := none, dns_ip := none }

/-- Models the per-line value extraction for string-typed keys:
`match linestr.split('=').nth(1) { Some(s) => Some(s.split(' ').nth(0).unwrap().to_string()), None => None }`. -/
def stringValue (l : List Char) : Option String :=
  match (splitOnChar ('=') l).get? 1 with
  | some s => some (String.mk (firstSpaceToken s))
  | none => none

/-- Models the per-line value extraction for `IpAddr`-typed keys: the raw
token as for `stringValue`, then `parse::<IpAddr>()`, a parse failure
yielding `None`. -/
def ipValue (l : List Char) : Option IpAddr :=
  match (splitOnChar ('=') l).get? 1 with
  | some s =>
    match parseIpAddr (firstSpaceToken s) with
    | some ip => some ip
    | none => none
  | none => none

/-- Models the per-line value extraction for the `IpNet`-typed key: the
raw token as for `stringValue`, then `parse::<IpNet>()`, a parse failure
yielding `None`. -/
def netValue (l : List Char) : Option IpNet :=
  match (splitOnChar ('=') l).get? 1 with
  | some s =>
    match parseIpNet (firstSpaceToken s) with
    | some n => some n
    | none => none
  | none => none

def keyZfsRoot : List Char := ("POT_ZFS_ROOT=").data
def keyFsRoot : List Char := ("POT_FS_ROOT=").data
def keyExtIf : List Char := ("POT_EXTIF=").data
def keyDnsName : List Char := ("POT_DNS_NAME=").data
def keyNetwork : List Char := ("POT_NETWORK=").data
def keyNetmask : List Char := ("POT_NETMASK=").data
def keyGateway : List Char := ("POT_GATEWAY=").data
def keyDnsIp : List Char := ("POT_DNS_IP=").data

/-- The `if linestr.starts_with("POT_ZFS_ROOT=")` statement of
`SystemConf::from_str`. -/
def lineZfsRoot (c : SystemConf) (l : List Char) : SystemConf :=
  if startsWithL keyZfsRoot l then { c with zfs_root := stringValue l } else c

/-- The `if linestr.starts_with("POT_FS_ROOT=")` statement. -/
def lineFsRoot (c : SystemConf) (l : List Char) : SystemConf :=
  if startsWithL keyFsRoot l then { c with fs_root := stringValue l } else c

/-- The `if linestr.starts_with("POT_EXTIF=")` statement. -/
def lineExtIf (c : SystemConf) (l : List Char) : SystemConf :=
  if startsWithL keyExtIf l then { c with ext_if := stringValue l } else c

/-- The `if linestr.starts_with("POT_DNS_NAME=")` statement. -/
def lineDnsName (c : SystemConf) (l : List Char) : SystemConf :=
  if startsWithL keyDnsName l then { c with dns_name := stringValue l } else c

/-- The `if linestr.starts_with("POT_NETWORK=")` statement. -/
def lineNetwork (c : SystemConf) (l : List Char) : SystemConf :=
  if startsWithL keyNetwork l then { c with network := netValue l } else c

/-- The `if linestr.starts_with("POT_NETMASK=")` statement. -/
def lineNetmask (c : SystemConf) (l : List Char) : SystemConf :=
  if startsWithL keyNetmask l then { c with netmask := ipValue l } else c

/-- The `if linestr.starts_with("POT_GATEWAY=")` statement. -/
def lineGateway (c : SystemConf) (l : List Char) : SystemConf :=
  if startsWithL keyGateway l then { c with gateway := ipValue l } else c

/-- The `if linestr.starts_with("POT_DNS_IP=")` statement. -/
def lineDnsIp (c : SystemConf) (l : List Char) : SystemConf :=
  if startsWithL keyDnsIp l then { c with dns_ip := ipValue l } else c

/-- Models the body of the loop of `SystemConf::from_str`: the eight
independent `if linestr.starts_with(..)` statements in source order, each
assigning one field of the accumulating configuration. -/
def processSystemLine (c : SystemConf) (l : List Char) : SystemConf :=
  lineDnsIp (lineGateway (lineNetmask (lineNetwork
    (lineDnsName (lineExtIf (lineFsRoot (lineZfsRoot c l) l) l) l) l) l) l) l

/-- Models the line preprocessing shared by `SystemConf::from_str` and
`BridgeConf::from_str`: split into lines, trim each, drop the lines whose
trimmed form starts with `'#'`. -/
def confLines (s : String) : List (List Char) :=
  ((rustLines s.data).map rustTrim).filter (fun l => !(startsWithChar ('#') l))

/-- Models `SystemConf::from_str`: fold the recognized-key assignments
over the preprocessed lines, starting from the default configuration;
the result is always `Ok`. -/
def SystemConf.fromStr (s : String) : Except PotError SystemConf :=
  Except.ok ((confLines s).foldl processSystemLine SystemConf.default)

/-- Models `SystemConf::is_valid`: every one of the eight fields differs
from `None`. -/
def SystemConf.is_valid (c : SystemConf) : Bool :=
  c.zfs_root.isSome && c.fs_root.isSome && c.network.isSome && c.netmask.isSome &&
  c.gateway.isSome && c.ext_if.isSome && c.dns_name.isSome && c.dns_ip.isSome

/-- Models `SystemConf::merge`: each field of the right-hand side
replaces the left one exactly when the right field is present. -/
def SystemConf.merge (c rhs : SystemConf) : SystemConf :=
  { zfs_root := match rhs.zfs_root with | some s => some s | none => c.zfs_root
    fs_root := match rhs.fs_root with | some s => some s | none => c.fs_root
    network := match rhs.network with | some s => some s | none => c.network
    netmask := match rhs.netmask with | some s => some s | none => c.netmask
    gateway := match rhs.gateway with | some s => some s | none => c.gateway
    ext_if := match rhs.ext_if with | some s => some s | none => c.ext_if
    dns_name := match rhs.dns_name with | some s => some s | none => c.dns_name
    dns_ip := match rhs.dns_ip with | some s => some s | none => c.dns_ip }

/-- A validated bridge definition (struct `BridgeConf`). -/
structure BridgeConf where
  name : String
  network : IpNet
  gateway : IpAddr
deriving DecidableEq

/-- Models `BridgeConf::optional_new`: all three fields must be present
and the network must contain the gateway. -/
def BridgeConf.optional_new (o_name : Option String) (o_network : Option IpNet)
    (o_gateway : Option IpAddr) : Option BridgeConf :=
  match o_name with
  | some name =>
    match o_network with
    | some network =>
      match o_gateway with
      | some gateway =>
        if network.contains gateway then some { name, network, gateway } else none
      | none => none
    | none => none
  | none => none

/-- The three mutable locals of `BridgeConf::from_str`. -/
structure BridgeFields where
  name : Option String
  network : Option IpNet
  gateway : Option IpAddr
deriving DecidableEq

def keyBridgeName : List Char := ("name=").data
def keyBridgeNet : List Char := ("net=").data
def keyBridgeGateway : List Char := ("gateway=").data

/-- Models the token extraction of the `net=` and `gateway=` branches of
`BridgeConf::from_str`: the first space-separated token of the piece
after the first `'='`, or the empty string when there is none. -/
def tokenValue (l : List Char) : List Char :=
  match (splitOnChar ('=') l).get? 1 with
  | some s => firstSpaceToken s
  | none => []

/-- The `if linestr.starts_with("name=")` statement of
`BridgeConf::from_str`. -/
def lineBridgeName (f : BridgeFields) (l : List Char) : BridgeFields :=
  if startsWithL keyBridgeName l then { f with name := stringValue l } else f

/-- The `if linestr.starts_with("net=")` statement. -/
def lineBridgeNet (f : BridgeFields) (l : List Char) : BridgeFields :=
  if startsWithL keyBridgeNet l then
    { f with network :=
        match parseIpNet (tokenValue l) with
        | some n => some n
        | none => none }
  else f

/-- The `if linestr.starts_with("gateway=")` statement. -/
def lineBridgeGateway (f : BridgeFields) (l : List Char) : BridgeFields :=
  if startsWithL keyBridgeGateway l then
    { f with gateway :=
        match parseIpAddr (tokenValue l) with
        | some n => some n
        | none => none }
  else f

/-- Models the body of the loop of `BridgeConf::from_str`: the three
independent `starts_with` statements in source order, each assigning one
of the three locals. -/
def processBridgeLine (f : BridgeFields) (l : List Char) : BridgeFields :=
  lineBridgeGateway (lineBridgeNet (lineBridgeName f l) l) l

/-- The three locals of `BridgeConf::from_str` after the loop over the
preprocessed lines. -/
def bridgeFields (s : String) : BridgeFields :=
  (confLines s).foldl processBridgeLine { name := none, network := none, gateway := none }

/-- Models `BridgeConf::from_str`: run the loop, then
`optional_new(..).ok_or(PotError::BridgeConfError)`. -/
def BridgeConf.fromStr (s : String) : Except PotError BridgeConf :=
  match BridgeConf.optional_new (bridgeFields s).name (bridgeFields s).network
      (bridgeFields s).gateway with
  | some b => Except.ok b
  | none => Except.error PotError.BridgeConfError

/-- Models `get_bridges_list`.  The filesystem is abstracted: `files`
lists, in enumeration order, one entry per regular file directly under
`fs_root/bridges`, where `none` models a file that fails to open or to
read and `some s` gives its text.  The `Except.error` result models the
panic of `conf.fs_root.clone().unwrap()` inside `get_bridges_path_list`
when `fs_root` is absent. -/
def get_bridges_list (conf : SystemConf) (files : List (Option String)) :
    Except Unit (List BridgeConf) :=
  match conf.fs_root with
  | none => Except.error ()
  | some _ =>
    Except.ok (files.foldl (fun acc f =>
      match f with
      | none => acc
      | some s =>
        match BridgeConf.fromStr s with
        | Except.ok b => acc ++ [b]
        | Except.error _ => acc) [])

/-- The pot network types (enum `NetType`). -/
inductive NetType where
  | Inherit : NetType
  | Alias : NetType
  | PublicBridge : NetType
  | PrivateBridge : NetType
deriving DecidableEq

/-- A resolved pot configuration (struct `PotConf`). -/
structure PotConf where
  name : String
  ip_addr : Option IpAddr
  network_type : NetType
deriving DecidableEq

/-- The raw key values of a pot configuration file before schema
resolution (struct `PotConfVerbatim`). -/
structure PotConfVerbatim where
  vnet : Option String
  ip4 : Option String
  ip : Option String
  network_type : Option String
deriving DecidableEq

/-- Models `PotConfVerbatim::default()`: every field absent. -/
def PotConfVerbatim.default : PotConfVerbatim :=
  { vnet := none, ip4 := none, ip := none, network_type := none }

def keyIp4 : List Char := ("ip4=").data
def keyIp : List Char := ("ip=").data
def keyVnet : List Char := ("vnet=").data
def keyNetworkType : List Char := ("network_type=").data

/-- Models `s.split('=').nth(1).unwrap()` of the pot-configuration line
loop; every use is guarded by a `starts_with` check on a pattern that
contains `'='`, so the piece exists there. -/
def eqValueRaw (l : List Char) : List Char :=
  match (splitOnChar ('=') l).get? 1 with
  | some s => s
  | none => []

/-- The `if s.starts_with("ip4=")` statement of the pot line loop. -/
def potLineIp4 (v : PotConfVerbatim) (l : List Char) : PotConfVerbatim :=
  if startsWithL keyIp4 l then { v with ip4 := some (String.mk (eqValueRaw l)) } else v

/-- The `if s.starts_with("ip=")` statement. -/
def potLineIp (v : PotConfVerbatim) (l : List Char) : PotConfVerbatim :=
  if startsWithL keyIp l then { v with ip := some (String.mk (eqValueRaw l)) } else v

/-- The `if s.starts_with("vnet=")` statement. -/
def potLineVnet (v : PotConfVerbatim) (l : List Char) : PotConfVerbatim :=
  if startsWithL keyVnet l then { v with vnet := some (String.mk (eqValueRaw l)) } else v

/-- The `if s.starts_with("network_type=")` statement. -/
def potLineNetworkType (v : PotConfVerbatim) (l : List Char) : PotConfVerbatim :=
  if startsWithL keyNetworkType l then
    { v with network_type := some (String.mk (eqValueRaw l)) }
  else v

/-- Models the body of the line loop of `get_pot_conf_list`: the four
independent `starts_with` statements in source order filling the verbatim
record; no trimming, no comment filtering, no space truncation here. -/
def processPotLine (v : PotConfVerbatim) (l : List Char) : PotConfVerbatim :=
  potLineNetworkType (potLineVnet (potLineIp (potLineIp4 v l) l) l) l

/-- The verbatim record built by `get_pot_conf_list` from one pot's
configuration-file text (raw `lines()`, no trimming). -/
def parsePotVerbatim (s : String) : PotConfVerbatim :=
  (rustLines s.data).foldl processPotLine PotConfVerbatim.default

/-- The mapping from the `network_type=` string of the new schema to
`NetType`, as matched in `get_pot_conf_list`. -/
def netTypeOfString (s : String) : Option NetType :=
  if s = ("inherit") then some NetType.Inherit
  else if s = ("alias") then some NetType.Alias
  else if s = ("public-bridge") then some NetType.PublicBridge
  else if s = ("private-bridge") then some NetType.PrivateBridge
  else none

/-- Outcome of resolving one pot's configuration inside
`get_pot_conf_list`: `skip` models `continue`, `panic` models the panic
of `IpAddr::from_str(..).ok().unwrap()` on a malformed address, and `ok`
models pushing the resolved configuration. -/
inductive ResolveOutcome where
  | panic : ResolveOutcome
  | skip : ResolveOutcome
  | ok (c : PotConf) : ResolveOutcome
deriving DecidableEq

/-- Models the schema-resolution block of `get_pot_conf_list` for one pot
given its verbatim key values: the new schema (`network_type` present)
first, then the legacy `ip4`/`vnet` schema. -/
def resolveVerbatim (name : String) (v : PotConfVerbatim) : ResolveOutcome :=
  match v.network_type with
  | some nts =>
    match netTypeOfString nts with
    | none => ResolveOutcome.skip
    | some t =>
      if t = NetType.Alias then ResolveOutcome.skip
      else if t = NetType.PublicBridge || t = NetType.PrivateBridge then
        match v.ip with
        | some ips =>
          match parseIpAddr ips.data with
          | some a => ResolveOutcome.ok { name, ip_addr := some a, network_type := t }
          | none => ResolveOutcome.panic
        | none => ResolveOutcome.skip
      else ResolveOutcome.ok { name, ip_addr := none, network_type := t }
  | none =>
    match v.ip4 with
    | none => ResolveOutcome.skip
    | some ip4s =>
      if ip4s = ("inherit") then
        ResolveOutcome.ok { name, ip_addr := none, network_type := NetType.Inherit }
      else
        match parseIpAddr ip4s.data with
        | none => ResolveOutcome.panic
        | some a =>
          match v.vnet with
          | none => ResolveOutcome.skip
          | some vn =>
            if vn = ("true") then
              ResolveOutcome.ok { name, ip_addr := some a, network_type := NetType.PublicBridge }
            else
              ResolveOutcome.ok { name, ip_addr := some a, network_type := NetType.Alias }

/-- Resolution of one pot from its configuration-file text: the verbatim
line loop followed by the schema-resolution block. -/
def resolvePotConf (name : String) (s : String) : ResolveOutcome :=
  resolveVerbatim name (parsePotVerbatim s)

/-- The raw-value formula asserted by the claim about `KEY=VALUE` lines:
the entire remainder of the line after the first `'='`, truncated at the
first space. -/
def claimRawValue (v : List Char) : List Char := firstSpaceToken v

/-- The corrected raw-value formula: the remainder after the first `'='`
truncated at the next `'='` (the piece between the first and second
`'='`), then truncated at the first space. -/
def storedRawValue (v : List Char) : List Char :=
  firstSpaceToken (match splitOnChar ('=') v with
    | h :: _ => h
    | [] => [])

/-- A fully populated system configuration, used as a concrete witness
input. -/
def fullConf : SystemConf :=
  { zfs_root := some ("zroot/pot"), fs_root := some ("/opt/pot"),
    network := some (IpNet.v4 192 168 0 0 24), netmask := some (IpAddr.v4 255 255 255 0),
    gateway := some (IpAddr.v4 192 168 0 1), ext_if := some ("em0"),
    dns_name := some ("bar_dns"), dns_ip := some (IpAddr.v4 192 168 0 2) }

/-! ### Helper lemmas -/

theorem splitOnChar_cons (sep c : Char) (rest : List Char) :
    splitOnChar sep (c :: rest) =
      match splitOnChar sep rest with
      | [] => [[]]
      | h :: t => if c == sep then [] :: h :: t else (c :: h) :: t := rfl

theorem splitOnChar_ne_nil (sep : Char) (l : List Char) : splitOnChar sep l ≠ [] := by
  induction l with
  | nil => simp [splitOnChar]
  | cons c rest ih =>
    rw [splitOnChar_cons]
    cases hs : splitOnChar sep rest with
    | nil => simp
    | cons h1 t => by_cases hcs : c = sep <;> simp [hcs]

theorem splitOnChar_of_not_mem (sep : Char) (l : List Char) (h : ∀ ch ∈ l, ch ≠ sep) :
    splitOnChar sep l = [l] := by
  induction l with
  | nil => rfl
  | cons c rest ih =>
    have hc : c ≠ sep := h c (List.mem_cons_self c rest)
    have hr : splitOnChar sep rest = [rest] :=
      ih (fun ch hch => h ch (List.mem_cons_of_mem c hch))
    rw [splitOnChar_cons, hr]
    simp [hc]

theorem splitOnChar_append_sep (sep : Char) (a b : List Char) (h : ∀ ch ∈ a, ch ≠ sep) :
    splitOnChar sep (a ++ sep :: b) = a :: splitOnChar sep b := by
  induction a with
  | nil =>
    rw [List.nil_append, splitOnChar_cons]
    cases hs : splitOnChar sep b with
    | nil => exact absurd hs (splitOnChar_ne_nil sep b)
    | cons h1 t => simp [← hs]
  | cons c cs ih =>
    have hc : c ≠ sep := h c (List.mem_cons_self c cs)
    have hr := ih (fun ch hch => h ch (List.mem_cons_of_mem c hch))
    rw [List.cons_append, splitOnChar_cons, hr]
    simp [hc]

theorem startsWithL_self_append (p r : List Char) : startsWithL p (p ++ r) = true := by
  induction p with
  | nil => rfl
  | cons c cs ih => simp [startsWithL, ih]

theorem lineZfsRoot_eq (c : SystemConf) (l : List Char) :
    lineZfsRoot c l
      = { c with zfs_root := if startsWithL keyZfsRoot l then stringValue l else c.zfs_root } := by
  unfold lineZfsRoot; split <;> rfl

theorem lineFsRoot_eq (c : SystemConf) (l : List Char) :
    lineFsRoot c l
      = { c with fs_root := if startsWithL keyFsRoot l then stringValue l else c.fs_root } := by
  unfold lineFsRoot; split <;> rfl

theorem lineExtIf_eq (c : SystemConf) (l : List Char) :
    lineExtIf c l
      = { c with ext_if := if startsWithL keyExtIf l then stringValue l else c.ext_if } := by
  unfold lineExtIf; split <;> rfl

theorem lineDnsName_eq (c : SystemConf) (l : List Char) :
    lineDnsName c l
      = { c with dns_name := if startsWithL keyDnsName l then stringValue l else c.dns_name } := by
  unfold lineDnsName; split <;> rfl

theorem lineNetwork_eq (c : SystemConf) (l : List Char) :
    lineNetwork c l
      = { c with network := if startsWithL keyNetwork l then netValue l else c.network } := by
  unfold lineNetwork; split <;> rfl

theorem lineNetmask_eq (c : SystemConf) (l : List Char) :
    lineNetmask c l
      = { c with netmask := if startsWithL keyNetmask l then ipValue l else c.netmask } := by
  unfold lineNetmask; split <;> rfl

theorem lineGateway_eq (c : SystemConf) (l : List Char) :
    lineGateway c l
      = { c with gateway := if startsWithL keyGateway l then ipValue l else c.gateway } := by
  unfold lineGateway; split <;> rfl

theorem lineDnsIp_eq (c : SystemConf) (l : List Char) :
    lineDnsIp c l
      = { c with dns_ip := if startsWithL keyDnsIp l then ipValue l else c.dns_ip } := by
  unfold lineDnsIp; split <;> rfl

theorem processSystemLine_eq (c : SystemConf) (l : List Char) :
    processSystemLine c l =
      { zfs_root := if startsWithL keyZfsRoot l then stringValue l else c.zfs_root,
        fs_root := if startsWithL keyFsRoot l then stringValue l else c.fs_root,
        ext_if := if startsWithL keyExtIf l then stringValue l else c.ext_if,
        dns_name := if startsWithL keyDnsName l then stringValue l else c.dns_name,
        network := if startsWithL keyNetwork l then netValue l else c.network,
        netmask := if startsWithL keyNetmask l then ipValue l else c.netmask,
        gateway := if startsWithL keyGateway l then ipValue l else c.gateway,
        dns_ip := if startsWithL keyDnsIp l then ipValue l else c.dns_ip } := by
  rw [processSystemLine, lineZfsRoot_eq, lineFsRoot_eq, lineExtIf_eq, lineDnsName_eq,
    lineNetwork_eq, lineNetmask_eq, lineGateway_eq, lineDnsIp_eq]

theorem merge_zfs_root (a b : SystemConf) :
    (a.merge b).zfs_root = b.zfs_root.or a.zfs_root := by
  cases hb : b.zfs_root <;> simp [SystemConf.merge, hb, Option.or]

theorem merge_fs_root (a b : SystemConf) :
    (a.merge b).fs_root = b.fs_root.or a.fs_root := by
  cases hb : b.fs_root <;> simp [SystemConf.merge, hb, Option.or]

theorem merge_network (a b : SystemConf) :
    (a.merge b).network = b.network.or a.network := by
  cases hb : b.network <;> simp [SystemConf.merge, hb, Option.or]

theorem merge_netmask (a b : SystemConf) :
    (a.merge b).netmask = b.netmask.or a.netmask := by
  cases hb : b.netmask <;> simp [SystemConf.merge, hb, Option.or]

theorem merge_gateway (a b : SystemConf) :
    (a.merge b).gateway = b.gateway.or a.gateway := by
  cases hb : b.gateway <;> simp [SystemConf.merge, hb, Option.or]

theorem merge_ext_if (a b : SystemConf) :
    (a.merge b).ext_if = b.ext_if.or a.ext_if := by
  cases hb : b.ext_if <;> simp [SystemConf.merge, hb, Option.or]

theorem merge_dns_name (a b : SystemConf) :
    (a.merge b).dns_name = b.dns_name.or a.dns_name := by
  cases hb : b.dns_name <;> simp [SystemConf.merge, hb, Option.or]

theorem merge_dns_ip (a b : SystemConf) :
    (a.merge b).dns_ip = b.dns_ip.or a.dns_ip := by
  cases hb : b.dns_ip <;> simp [SystemConf.merge, hb, Option.or]

theorem lineBridgeName_eq (f : BridgeFields) (l : List Char) :
    lineBridgeName f l
      = { f with name := if startsWithL keyBridgeName l then stringValue l else f.name } := by
  unfold lineBridgeName; split <;> rfl

theorem lineBridgeNet_eq (f : BridgeFields) (l : List Char) :
    lineBridgeNet f l
      = { f with network :=
            if startsWithL keyBridgeNet l then
              match parseIpNet (tokenValue l) with
              | some n => some n
              | none => none
            else f.network } := by
  unfold lineBridgeNet; split <;> rfl

theorem lineBridgeGateway_eq (f : BridgeFields) (l : List Char) :
    lineBridgeGateway f l
      = { f with gateway :=
            if startsWithL keyBridgeGateway l then
              match parseIpAddr (tokenValue l) with
              | some n => some n
              | none => none
            else f.gateway } := by
  unfold lineBridgeGateway; split <;> rfl

theorem bridges_foldl_eq (files : List (Option String)) (acc : List BridgeConf) :
    files.foldl (fun acc f =>
      match f with
      | none => acc
      | some s =>
        match BridgeConf.fromStr s with
        | Except.ok b => acc ++ [b]
        | Except.error _ => acc) acc
    = acc ++ files.filterMap (fun f =>
        match f with
        | none => none
        | some s => (BridgeConf.fromStr s).toOption) := by
  induction files generalizing acc with
  | nil => simp
  | cons f rest ih =>
    cases f with
    | none => simp [List.foldl_cons, List.filterMap_cons, ih]
    | some s =>
      cases hb : BridgeConf.fromStr s with
      | ok b =>
        simp only [List.foldl_cons, List.filterMap_cons, hb, Except.toOption, ih,
          List.append_assoc, List.singleton_append]
      | error e =>
        simp only [List.foldl_cons, List.filterMap_cons, hb, Except.toOption, ih]

/-! ### Claims -/

/-- C1: `SystemConf::from_str` succeeds on every input string — empty,
comment-only and garbage text included; a recognized key whose value
fails to parse into its typed form (IP address for `POT_NETMASK`,
`POT_GATEWAY` and `POT_DNS_IP`, CIDR network for `POT_NETWORK`) leaves
that field `None` instead of producing an error; in particular
`POT_NETWORK=192.168.0.0` yields an absent network field. -/
theorem c1_fromstr_always_ok_bad_value_absent :
    (∀ s : String, ∃ c, SystemConf.fromStr s = Except.ok c) ∧
    (∀ (c : SystemConf) (l : List Char), startsWithL keyNetwork l = true →
      netValue l = none → (processSystemLine c l).network = none) ∧
    (∀ (c : SystemConf) (l : List Char), startsWithL keyNetmask l = true →
      ipValue l = none → (processSystemLine c l).netmask = none) ∧
    (∀ (c : SystemConf) (l : List Char), startsWithL keyGateway l = true →
      ipValue l = none → (processSystemLine c l).gateway = none) ∧
    (∀ (c : SystemConf) (l : List Char), startsWithL keyDnsIp l = true →
      ipValue l = none → (processSystemLine c l).dns_ip = none) ∧
    SystemConf.fromStr ("POT_NETWORK=192.168.0.0") = Except.ok SystemConf.default := by
  refine ⟨fun s => ⟨_, rfl⟩, ?_, ?_, ?_, ?_, rfl⟩ <;>
    { intro c l hk hv
      rw [processSystemLine_eq]
      simp [hk, hv] }

/-- Witness for C1: the network line with a prefix-free address is
recognized and its unparseable value leaves the field absent. -/
theorem c1_witness :
    (processSystemLine SystemConf.default (("POT_NETWORK=192.168.0.0").data)).network
      = none :=
  c1_fromstr_always_ok_bad_value_absent.2.1 SystemConf.default
    (("POT_NETWORK=192.168.0.0").data) (by decide) (by decide)

/-- C2: `SystemConf::merge` is right-biased per field (the right-hand
field replaces the left one exactly when present), merging with the
all-absent default configuration is the identity, and merging with a
fully populated (valid) configuration yields that configuration. -/
theorem c2_merge_right_biased :
    (∀ a b : SystemConf,
      (a.merge b).zfs_root = b.zfs_root.or a.zfs_root ∧
      (a.merge b).fs_root = b.fs_root.or a.fs_root ∧
      (a.merge b).network = b.network.or a.network ∧
      (a.merge b).netmask = b.netmask.or a.netmask ∧
      (a.merge b).gateway = b.gateway.or a.gateway ∧
      (a.merge b).ext_if = b.ext_if.or a.ext_if ∧
      (a.merge b).dns_name = b.dns_name.or a.dns_name ∧
      (a.merge b).dns_ip = b.dns_ip.or a.dns_ip) ∧
    (∀ a : SystemConf, a.merge SystemConf.default = a) ∧
    (∀ a b : SystemConf, b.is_valid = true → a.merge b = b) := by
  refine ⟨fun a b => ⟨merge_zfs_root a b, merge_fs_root a b, merge_network a b,
      merge_netmask a b, merge_gateway a b, merge_ext_if a b, merge_dns_name a b,
      merge_dns_ip a b⟩, fun a => rfl, fun a b hb => ?_⟩
  obtain ⟨z, f, n, m, g, e, d, i⟩ := b
  simp only [SystemConf.is_valid, Bool.and_eq_true, Option.isSome_iff_exists] at hb
  obtain ⟨⟨⟨⟨⟨⟨⟨⟨z', hz⟩, ⟨f', hf⟩⟩, ⟨n', hn⟩⟩, ⟨m', hm⟩⟩, ⟨g', hg⟩⟩, ⟨e', he⟩⟩,
    ⟨d', hd⟩⟩, ⟨i', hi⟩⟩ := hb
  subst hz hf hn hm hg he hd hi
  rfl

/-- Witness for C2: merging the default configuration with a fully
populated configuration yields exactly that configuration. -/
theorem c2_witness : SystemConf.merge SystemConf.default fullConf = fullConf :=
  c2_merge_right_biased.2.2 SystemConf.default fullConf (by decide)

/-- C3: `is_valid` holds exactly when all eight fields are present, and
blanking any single field of a valid configuration invalidates it. -/
theorem c3_is_valid_iff_all_fields :
    (∀ c : SystemConf, c.is_valid = true ↔
      (c.zfs_root ≠ none ∧ c.fs_root ≠ none ∧ c.network ≠ none ∧ c.netmask ≠ none ∧
       c.gateway ≠ none ∧ c.ext_if ≠ none ∧ c.dns_name ≠ none ∧ c.dns_ip ≠ none)) ∧
    (∀ c : SystemConf, c.is_valid = true →
      ({ c with zfs_root := none } : SystemConf).is_valid = false ∧
      ({ c with fs_root := none } : SystemConf).is_valid = false ∧
      ({ c with network := none } : SystemConf).is_valid = false ∧
      ({ c with netmask := none } : SystemConf).is_valid = false ∧
      ({ c with gateway := none } : SystemConf).is_valid = false ∧
      ({ c with ext_if := none } : SystemConf).is_valid = false ∧
      ({ c with dns_name := none } : SystemConf).is_valid = false ∧
      ({ c with dns_ip := none } : SystemConf).is_valid = false) := by
  constructor
  · intro c
    simp [SystemConf.is_valid, Bool.and_eq_true, Option.isSome_iff_ne_none, and_assoc]
  · intro c _
    refine ⟨?_, ?_, ?_, ?_, ?_, ?_, ?_, ?_⟩ <;> simp [SystemConf.is_valid]

/-- Witness for C3: blanking the storage root of a concrete valid
configuration invalidates it. -/
theorem c3_witness :
    ({ fullConf with zfs_root := none } : SystemConf).is_valid = false :=
  (c3_is_valid_iff_all_fields.2 fullConf (by decide)).1

/-- C4: `BridgeConf::from_str` fails with `BridgeConfError` exactly when
one of the three parsed fields is absent (a missing or unparseable line)
or the gateway lies outside the network, and on success it reproduces the
parsed network and gateway unchanged; concretely, a gateway outside
`10.192.0.24/29` fails and one inside succeeds. -/
theorem c4_bridge_fromstr_gateway_in_net :
    (∀ (s : String) (n : String) (net : IpNet) (gw : IpAddr),
      bridgeFields s = { name := some n, network := some net, gateway := some gw } →
      net.contains gw = true →
      BridgeConf.fromStr s = Except.ok { name := n, network := net, gateway := gw }) ∧
    (∀ s : String,
      ((bridgeFields s).name = none ∨ (bridgeFields s).network = none ∨
        (bridgeFields s).gateway = none ∨
        (∀ net gw, (bridgeFields s).network = some net → (bridgeFields s).gateway = some gw →
          net.contains gw = false)) →
      BridgeConf.fromStr s = Except.error PotError.BridgeConfError) ∧
    (BridgeConf.fromStr ("net=10.192.0.24/29\ngateway=10.192.1.25\nname=test-bridge")
      = Except.error PotError.BridgeConfError) ∧
    (BridgeConf.fromStr ("net=10.192.0.24/29\ngateway=10.192.0.25\nname=test-bridge")
      = Except.ok { name := ("test-bridge"), network := IpNet.v4 10 192 0 24 29,
                    gateway := IpAddr.v4 10 192 0 25 }) := by
  refine ⟨?_, ?_, rfl, rfl⟩
  · intro s n net gw hf hc
    unfold BridgeConf.fromStr
    rw [hf]
    simp [BridgeConf.optional_new, hc]
  · intro s hcase
    unfold BridgeConf.fromStr BridgeConf.optional_new
    rcases hcase with h | h | h | h
    · simp [h]
    · cases hn : (bridgeFields s).name <;> simp [h, hn]
    · cases hn : (bridgeFields s).name <;> cases hw : (bridgeFields s).network <;>
        simp [h, hn, hw]
    · cases hn : (bridgeFields s).name with
      | none => simp [hn]
      | some n =>
        cases hw : (bridgeFields s).network with
        | none => simp [hn, hw]
        | some net =>
          cases hg : (bridgeFields s).gateway with
          | none => simp [hn, hw, hg]
          | some gw => simp [hn, hw, hg, h net gw hw hg]

/-- Witness for C4: a bridge text whose three fields parse and whose
gateway lies inside the network parses to exactly those fields. -/
theorem c4_witness :
    BridgeConf.fromStr ("name=br0\nnet=192.168.0.0/24\ngateway=192.168.0.1")
      = Except.ok { name := ("br0"), network := IpNet.v4 192 168 0 0 24,
                    gateway := IpAddr.v4 192 168 0 1 } :=
  c4_bridge_fromstr_gateway_in_net.1 ("name=br0\nnet=192.168.0.0/24\ngateway=192.168.0.1")
    ("br0") (IpNet.v4 192 168 0 0 24) (IpAddr.v4 192 168 0 1) (by decide) (by decide)

/-- C5 counterexample: for the line `POT_DNS_NAME=A=B` the claim's
formula (everything after the first equals sign, truncated at the first
space) predicts the stored value `A=B`, but the code stores `A` — the
value is also truncated at the second equals sign. -/
theorem c5_counterexample :
    SystemConf.fromStr ("POT_DNS_NAME=A=B")
      = Except.ok { SystemConf.default with dns_name := some ("A") } ∧
    String.mk (claimRawValue (("A=B").data)) = ("A=B") ∧
    (("A" : String)) ≠ ("A=B") :=
  ⟨rfl, rfl, by decide⟩

/-- C5 (amended): for a `KEY=VALUE` line the stored raw value is the
piece of the line between the first and second equals sign (not the
entire remainder after the first one), truncated at the first space, with
no unquoting: a quoted value keeps its quotes and a trailing inline
comment after a space is stripped; the same extraction is used by the
bridge parser. -/
theorem c5_value_segment_between_eq_signs :
    (∀ (a v : List Char), (∀ ch ∈ a, ch ≠ '=') →
      stringValue (a ++ '=' :: v) = some (String.mk (storedRawValue v))) ∧
    (∀ (a v : List Char), (∀ ch ∈ a, ch ≠ '=') →
      tokenValue (a ++ '=' :: v) = storedRawValue v) ∧
    (∀ v : List Char, ('\n') ∉ v → rustTrim (keyDnsName ++ v) = keyDnsName ++ v →
      SystemConf.fromStr (String.mk (keyDnsName ++ v))
        = Except.ok { SystemConf.default with
            dns_name := some (String.mk (storedRawValue v)) }) ∧
    (SystemConf.fromStr ("POT_DNS_NAME=\"FOO_DNS\"")
      = Except.ok { SystemConf.default with dns_name := some ("\"FOO_DNS\"") }) ∧
    (("\"FOO_DNS\"" : String) ≠ ("FOO_DNS")) ∧
    (SystemConf.fromStr ("POT_DNS_NAME=FOO_DNS # dns pot name")
      = Except.ok { SystemConf.default with dns_name := some ("FOO_DNS") }) ∧
    (BridgeConf.fromStr ("name=A=B x\nnet=10.192.0.24/29\ngateway=10.192.0.25")
      = Except.ok { name := ("A"), network := IpNet.v4 10 192 0 24 29,
                    gateway := IpAddr.v4 10 192 0 25 }) := by
  have hstr : ∀ (a v : List Char), (∀ ch ∈ a, ch ≠ '=') →
      stringValue (a ++ '=' :: v) = some (String.mk (storedRawValue v)) := by
    intro a v h
    unfold stringValue
    rw [splitOnChar_append_sep ('=') a v h]
    cases hs : splitOnChar ('=') v with
    | nil => exact absurd hs (splitOnChar_ne_nil _ v)
    | cons h1 t => simp [storedRawValue, hs]
  have htok : ∀ (a v : List Char), (∀ ch ∈ a, ch ≠ '=') →
      tokenValue (a ++ '=' :: v) = storedRawValue v := by
    intro a v h
    unfold tokenValue
    rw [splitOnChar_append_sep ('=') a v h]
    cases hs : splitOnChar ('=') v with
    | nil => exact absurd hs (splitOnChar_ne_nil _ v)
    | cons h1 t => simp [storedRawValue, hs]
  refine ⟨hstr, htok, ?_, rfl, by decide, rfl, rfl⟩
  intro v hnl htr
  have hmem : ∀ ch ∈ keyDnsName ++ v, ch ≠ '\n' := by
    intro ch hch
    rcases List.mem_append.mp hch with h | h
    · exact (by decide : ∀ c ∈ keyDnsName, c ≠ '\n') ch h
    · exact fun heq => hnl (heq ▸ h)
  have hsplit : splitOnChar ('\n') (keyDnsName ++ v) = [keyDnsName ++ v] :=
    splitOnChar_of_not_mem _ _ hmem
  have hkey : keyDnsName ++ v = 'P' :: ((("OT_DNS_NAME=").data) ++ v) := rfl
  have hlines : rustLines (keyDnsName ++ v) = [keyDnsName ++ v] := by
    unfold rustLines
    rw [hsplit]
    rw [hkey]
    simp
  have hconf : confLines (String.mk (keyDnsName ++ v)) = [keyDnsName ++ v] := by
    unfold confLines
    show ((rustLines (keyDnsName ++ v)).map rustTrim).filter _ = _
    rw [hlines]
    simp only [List.map_cons, List.map_nil, htr, List.filter]
    rfl
  unfold SystemConf.fromStr
  rw [hconf]
  simp only [List.foldl_cons, List.foldl_nil]
  rw [processSystemLine_eq]
  have hdns : startsWithL keyDnsName (keyDnsName ++ v) = true :=
    startsWithL_self_append keyDnsName v
  have hval : stringValue (keyDnsName ++ v) = some (String.mk (storedRawValue v)) :=
    hstr (("POT_DNS_NAME").data) v (by decide)
  simp only [hdns, if_true, hval,
    (rfl : startsWithL keyZfsRoot (keyDnsName ++ v) = false),
    (rfl : startsWithL keyFsRoot (keyDnsName ++ v) = false),
    (rfl : startsWithL keyExtIf (keyDnsName ++ v) = false),
    (rfl : startsWithL keyNetwork (keyDnsName ++ v) = false),
    (rfl : startsWithL keyNetmask (keyDnsName ++ v) = false),
    (rfl : startsWithL keyGateway (keyDnsName ++ v) = false),
    (rfl : startsWithL keyDnsIp (keyDnsName ++ v) = false),
    if_false]
  rfl

/-- Witness for C5: the line `POT_DNS_NAME=A=B x` stores the piece
between the two equals signs truncated at the space. -/
theorem c5_witness :
    SystemConf.fromStr (String.mk (keyDnsName ++ (("A=B x").data)))
      = Except.ok { SystemConf.default with
          dns_name := some (String.mk (storedRawValue (("A=B x").data))) } :=
  c5_value_segment_between_eq_signs.2.2.1 (("A=B x").data) (by decide) (by decide)

/-- C6: under the new pot schema (`network_type` key present), an
unrecognized value skips the pot; `alias` always skips; `public-bridge`
and `private-bridge` skip when the `ip` key is absent, and resolve with
the parsed address and the corresponding network type when it parses. -/
theorem c6_new_schema_resolution :
    (∀ (name : String) (v : PotConfVerbatim) (nts : String),
      v.network_type = some nts → netTypeOfString nts = none →
      resolveVerbatim name v = ResolveOutcome.skip) ∧
    (∀ (name : String) (v : PotConfVerbatim),
      v.network_type = some ("alias") → resolveVerbatim name v = ResolveOutcome.skip) ∧
    (∀ (name : String) (v : PotConfVerbatim),
      (v.network_type = some ("public-bridge") ∨ v.network_type = some ("private-bridge")) →
      v.ip = none → resolveVerbatim name v = ResolveOutcome.skip) ∧
    (∀ (name : String) (v : PotConfVerbatim) (ips : String) (a : IpAddr),
      v.network_type = some ("public-bridge") → v.ip = some ips →
      parseIpAddr ips.data = some a →
      resolveVerbatim name v
        = ResolveOutcome.ok { name, ip_addr := some a, network_type := NetType.PublicBridge }) ∧
    (∀ (name : String) (v : PotConfVerbatim) (ips : String) (a : IpAddr),
      v.network_type = some ("private-bridge") → v.ip = some ips →
      parseIpAddr ips.data = some a →
      resolveVerbatim name v
        = ResolveOutcome.ok { name, ip_addr := some a, network_type := NetType.PrivateBridge }) := by
  refine ⟨?_, ?_, ?_, ?_, ?_⟩
  · intro name v nts h1 h2
    simp only [resolveVerbatim, h1, h2]
  · intro name v h1
    simp only [resolveVerbatim, h1]
    rfl
  · intro name v h1 h2
    rcases h1 with h1 | h1 <;> simp only [resolveVerbatim, h1, h2] <;> rfl
  · intro name v ips a h1 h2 h3
    simp only [resolveVerbatim, h1, h2, h3]
    rfl
  · intro name v ips a h1 h2 h3
    simp only [resolveVerbatim, h1, h2, h3]
    rfl

/-- Witness for C6: a pot with `network_type=public-bridge` and a
parseable `ip` resolves with that address. -/
theorem c6_witness :
    resolveVerbatim ("p")
      { vnet := none, ip4 := none, ip := some ("10.0.0.5"),
        network_type := some ("public-bridge") }
      = ResolveOutcome.ok { name := ("p"), ip_addr := some (IpAddr.v4 10 0 0 5),
                            network_type := NetType.PublicBridge } :=
  c6_new_schema_resolution.2.2.2.1 ("p")
    { vnet := none, ip4 := none, ip := some ("10.0.0.5"),
      network_type := some ("public-bridge") }
    ("10.0.0.5") (IpAddr.v4 10 0 0 5) rfl rfl (by decide)

/-- C7: under the legacy pot schema (no `network_type` key): an absent
`ip4` skips; `ip4=inherit` resolves to `Inherit` with no address; an
address-valued `ip4` with no `vnet` key skips, with `vnet=true` resolves
to `PublicBridge`, and with any other `vnet` value resolves to `Alias`;
the spec's four concrete examples behave accordingly. -/
theorem c7_legacy_schema_resolution :
    (∀ (name : String) (v : PotConfVerbatim),
      v.network_type = none → v.ip4 = none →
      resolveVerbatim name v = ResolveOutcome.skip) ∧
    (∀ (name : String) (v : PotConfVerbatim),
      v.network_type = none → v.ip4 = some ("inherit") →
      resolveVerbatim name v
        = ResolveOutcome.ok { name, ip_addr := none, network_type := NetType.Inherit }) ∧
    (∀ (name : String) (v : PotConfVerbatim) (s : String) (a : IpAddr),
      v.network_type = none → v.ip4 = some s → s ≠ ("inherit") →
      parseIpAddr s.data = some a → v.vnet = none →
      resolveVerbatim name v = ResolveOutcome.skip) ∧
    (∀ (name : String) (v : PotConfVerbatim) (s : String) (a : IpAddr),
      v.network_type = none → v.ip4 = some s → s ≠ ("inherit") →
      parseIpAddr s.data = some a → v.vnet = some ("true") →
      resolveVerbatim name v
        = ResolveOutcome.ok { name, ip_addr := some a, network_type := NetType.PublicBridge }) ∧
    (∀ (name : String) (v : PotConfVerbatim) (s : String) (a : IpAddr) (w : String),
      v.network_type = none → v.ip4 = some s → s ≠ ("inherit") →
      parseIpAddr s.data = some a → v.vnet = some w → w ≠ ("true") →
      resolveVerbatim name v
        = ResolveOutcome.ok { name, ip_addr := some a, network_type := NetType.Alias }) ∧
    (resolvePotConf ("p") ("ip4=inherit")
      = ResolveOutcome.ok { name := ("p"), ip_addr := none,
                            network_type := NetType.Inherit }) ∧
    (resolvePotConf ("p") ("ip4=10.0.0.5\nvnet=true")
      = ResolveOutcome.ok { name := ("p"), ip_addr := some (IpAddr.v4 10 0 0 5),
                            network_type := NetType.PublicBridge }) ∧
    (resolvePotConf ("p") ("ip4=10.0.0.5\nvnet=false")
      = ResolveOutcome.ok { name := ("p"), ip_addr := some (IpAddr.v4 10 0 0 5),
                            network_type := NetType.Alias }) ∧
    (resolvePotConf ("p") ("ip4=10.0.0.5") = ResolveOutcome.skip) := by
  refine ⟨?_, ?_, ?_, ?_, ?_, rfl, rfl, rfl, rfl⟩
  · intro name v h1 h2
    simp only [resolveVerbatim, h1, h2]
  · intro name v h1 h2
    simp only [resolveVerbatim, h1, h2]
    rfl
  · intro name v s a h1 h2 h3 h4 h5
    simp only [resolveVerbatim, h1, h2]
    rw [if_neg h3]
    simp only [h4, h5]
  · intro name v s a h1 h2 h3 h4 h5
    simp only [resolveVerbatim, h1, h2]
    rw [if_neg h3]
    simp only [h4, h5]
    rfl
  · intro name v s a w h1 h2 h3 h4 h5 h6
    simp only [resolveVerbatim, h1, h2]
    rw [if_neg h3]
    simp only [h4, h5]
    rw [if_neg h6]

/-- Witness for C7: `ip4=10.0.0.5` with `vnet=false` resolves to an
`Alias` pot with that address. -/
theorem c7_witness :
    resolveVerbatim ("p")
      { vnet := some ("false"), ip4 := some ("10.0.0.5"), ip := none, network_type := none }
      = ResolveOutcome.ok { name := ("p"), ip_addr := some (IpAddr.v4 10 0 0 5),
                            network_type := NetType.Alias } :=
  c7_legacy_schema_resolution.2.2.2.2.1 ("p")
    { vnet := some ("false"), ip4 := some ("10.0.0.5"), ip := none, network_type := none }
    ("10.0.0.5") (IpAddr.v4 10 0 0 5) ("false") rfl rfl (by decide) (by decide) rfl
    (by decide)

/-- C8: a present but unparseable IP-shaped field (new-schema `ip` under
a bridge network type, or a legacy non-inherit `ip4`) makes the pot's
resolution panic rather than skip; for those IP-shaped fields a skip can
only come from the field being absent, never from a present-but-corrupt
value. -/
theorem c8_malformed_ip_panics :
    (∀ (name : String) (v : PotConfVerbatim) (ips : String),
      (v.network_type = some ("public-bridge") ∨ v.network_type = some ("private-bridge")) →
      v.ip = some ips → parseIpAddr ips.data = none →
      resolveVerbatim name v = ResolveOutcome.panic) ∧
    (∀ (name : String) (v : PotConfVerbatim) (s : String),
      v.network_type = none → v.ip4 = some s → s ≠ ("inherit") →
      parseIpAddr s.data = none →
      resolveVerbatim name v = ResolveOutcome.panic) ∧
    (∀ (name : String) (v : PotConfVerbatim),
      v.network_type = some ("public-bridge") →
      resolveVerbatim name v = ResolveOutcome.skip → v.ip = none) ∧
    (∀ (name : String) (v : PotConfVerbatim),
      v.network_type = some ("private-bridge") →
      resolveVerbatim name v = ResolveOutcome.skip → v.ip = none) ∧
    (∀ (name : String) (v : PotConfVerbatim) (s : String),
      v.network_type = none → v.ip4 = some s → s ≠ ("inherit") →
      resolveVerbatim name v = ResolveOutcome.skip →
      parseIpAddr s.data ≠ none) := by
  refine ⟨?_, ?_, ?_, ?_, ?_⟩
  · intro name v ips h1 h2 h3
    rcases h1 with h1 | h1 <;> simp only [resolveVerbatim, h1, h2, h3] <;> rfl
  · intro name v s h1 h2 h3 h4
    simp only [resolveVerbatim, h1, h2]
    rw [if_neg h3]
    simp only [h4]
  · intro name v h1 hskip
    cases hip : v.ip with
    | none => rfl
    | some ips =>
      exfalso
      cases hp : parseIpAddr ips.data with
      | none =>
        have hres : resolveVerbatim name v = ResolveOutcome.panic := by
          simp only [resolveVerbatim, h1, hip, hp]
          rfl
        rw [hres] at hskip
        exact ResolveOutcome.noConfusion hskip
      | some a =>
        have hres : resolveVerbatim name v
            = ResolveOutcome.ok ⟨name, some a, NetType.PublicBridge⟩ := by
          simp only [resolveVerbatim, h1, hip, hp]
          rfl
        rw [hres] at hskip
        exact ResolveOutcome.noConfusion hskip
  · intro name v h1 hskip
    cases hip : v.ip with
    | none => rfl
    | some ips =>
      exfalso
      cases hp : parseIpAddr ips.data with
      | none =>
        have hres : resolveVerbatim name v = ResolveOutcome.panic := by
          simp only [resolveVerbatim, h1, hip, hp]
          rfl
        rw [hres] at hskip
        exact ResolveOutcome.noConfusion hskip
      | some a =>
        have hres : resolveVerbatim name v
            = ResolveOutcome.ok ⟨name, some a, NetType.PrivateBridge⟩ := by
          simp only [resolveVerbatim, h1, hip, hp]
          rfl
        rw [hres] at hskip
        exact ResolveOutcome.noConfusion hskip
  · intro name v s h1 h2 h3 hskip hp
    have hres : resolveVerbatim name v = ResolveOutcome.panic := by
      simp only [resolveVerbatim, h1, h2]
      rw [if_neg h3]
      simp only [hp]
    rw [hres] at hskip
    exact ResolveOutcome.noConfusion hskip

/-- Witness for C8: a new-schema pot with `ip=garbage` panics. -/
theorem c8_witness :
    resolveVerbatim ("p")
      { vnet := none, ip4 := none, ip := some ("garbage"),
        network_type := some ("public-bridge") }
      = ResolveOutcome.panic :=
  c8_malformed_ip_panics.1 ("p")
    { vnet := none, ip4 := none, ip := some ("garbage"),
      network_type := some ("public-bridge") }
    ("garbage") (Or.inl rfl) rfl (by decide)

/-- C9 counterexample: for the default (all-absent) system configuration
`get_bridges_list` does not return a list of bridges — the unwrap of the
absent `fs_root` inside `get_bridges_path_list` aborts it — so the claim
quantified over every system configuration is false. -/
theorem c9_counterexample :
    get_bridges_list SystemConf.default [] = Except.error () := rfl

/-- C9 (amended): for every system configuration whose `fs_root` is
present, `get_bridges_list` never fails as a whole: it reads every
enumerated file and returns exactly the bridge configurations of the
files that open, read and parse successfully, silently dropping the
rest. -/
theorem c9_bridges_list_drops_failures (conf : SystemConf)
    (files : List (Option String)) (root : String) (h : conf.fs_root = some root) :
    get_bridges_list conf files
      = Except.ok (files.filterMap (fun f =>
          match f with
          | none => none
          | some s => (BridgeConf.fromStr s).toOption)) := by
  unfold get_bridges_list
  rw [h, bridges_foldl_eq files []]
  rfl

/-- Witness for C9: a directory with an unreadable file, a valid bridge
file and an invalid one yields exactly the valid bridge. -/
theorem c9_witness :
    get_bridges_list fullConf
      [none, some ("name=br0\nnet=192.168.0.0/24\ngateway=192.168.0.1"),
        some ("name=bad")]
      = Except.ok ([none, some ("name=br0\nnet=192.168.0.0/24\ngateway=192.168.0.1"),
          some ("name=bad")].filterMap (fun f =>
            match f with
            | none => none
            | some s => (BridgeConf.fromStr s).toOption)) :=
  c9_bridges_list_drops_failures fullConf
    [none, some ("name=br0\nnet=192.168.0.0/24\ngateway=192.168.0.1"), some ("name=bad")]
    ("/opt/pot") rfl

theorem option_or_isSome_right {α : Type} (x y : Option α) (h : y.isSome = true) :
    (x.or y).isSome = true := by
  cases x <;> simp [Option.or, h]

/-- C10: `SystemConf::merge` never clears a field — every field present
on the left stays present after the merge — hence merging preserves
validity of the left configuration whatever the right one is. -/
theorem c10_merge_never_clears :
    (∀ a b : SystemConf,
      (a.zfs_root.isSome = true → (a.merge b).zfs_root.isSome = true) ∧
      (a.fs_root.isSome = true → (a.merge b).fs_root.isSome = true) ∧
      (a.network.isSome = true → (a.merge b).network.isSome = true) ∧
      (a.netmask.isSome = true → (a.merge b).netmask.isSome = true) ∧
      (a.gateway.isSome = true → (a.merge b).gateway.isSome = true) ∧
      (a.ext_if.isSome = true → (a.merge b).ext_if.isSome = true) ∧
      (a.dns_name.isSome = true → (a.merge b).dns_name.isSome = true) ∧
      (a.dns_ip.isSome = true → (a.merge b).dns_ip.isSome = true)) ∧
    (∀ a b : SystemConf, a.is_valid = true → (a.merge b).is_valid = true) := by
  constructor
  · intro a b
    refine ⟨?_, ?_, ?_, ?_, ?_, ?_, ?_, ?_⟩ <;> intro h
    · rw [merge_zfs_root]; exact option_or_isSome_right _ _ h
    · rw [merge_fs_root]; exact option_or_isSome_right _ _ h
    · rw [merge_network]; exact option_or_isSome_right _ _ h
    · rw [merge_netmask]; exact option_or_isSome_right _ _ h
    · rw [merge_gateway]; exact option_or_isSome_right _ _ h
    · rw [merge_ext_if]; exact option_or_isSome_right _ _ h
    · rw [merge_dns_name]; exact option_or_isSome_right _ _ h
    · rw [merge_dns_ip]; exact option_or_isSome_right _ _ h
  · intro a b h
    simp only [SystemConf.is_valid, Bool.and_eq_true] at h ⊢
    obtain ⟨⟨⟨⟨⟨⟨⟨h1, h2⟩, h3⟩, h4⟩, h5⟩, h6⟩, h7⟩, h8⟩ := h
    refine ⟨⟨⟨⟨⟨⟨⟨?_, ?_⟩, ?_⟩, ?_⟩, ?_⟩, ?_⟩, ?_⟩, ?_⟩
    · rw [merge_zfs_root]; exact option_or_isSome_right _ _ h1
    · rw [merge_fs_root]; exact option_or_isSome_right _ _ h2
    · rw [merge_network]; exact option_or_isSome_right _ _ h3
    · rw [merge_netmask]; exact option_or_isSome_right _ _ h4
    · rw [merge_gateway]; exact option_or_isSome_right _ _ h5
    · rw [merge_ext_if]; exact option_or_isSome_right _ _ h6
    · rw [merge_dns_name]; exact option_or_isSome_right _ _ h7
    · rw [merge_dns_ip]; exact option_or_isSome_right _ _ h8

/-- Witness for C10: a valid configuration merged with the all-absent
configuration is still valid. -/
theorem c10_witness : (SystemConf.merge fullConf SystemConf.default).is_valid = true :=
  c10_merge_never_clears.2 fullConf SystemConf.default (by decide)

end Potnet
